import Mathlib

/-!
Verification development for the AIBot task-orchestration runtime.

The Go source is shallowly embedded: pure helpers become Lean functions,
stateful methods become explicit state-passing functions, Go `int` becomes
`Int` (or `Nat` where the value is a count that is never negative in the
source), and fallible operations return `Except String` / `Option String`
mirroring Go's `error` results.  External collaborators (the Playwright
driver, the OpenAI service, stdin confirmation) are modelled as explicit
environments supplying their results.
-/

namespace AIBot

/-! ## Go string helpers (strings.Contains / HasPrefix / ToLower / TrimSpace) -/

/-- `listStartsWith s p` models Go `strings.HasPrefix(s, p)` over rune lists. -/
def listStartsWith : List Char → List Char → Bool
  | _, [] => true
  | [], _ :: _ => false
  | c :: s, p :: ps => c == p && listStartsWith s ps

/-- `listContainsSub sub s` models Go `strings.Contains(s, sub)` over rune lists. -/
def listContainsSub (sub : List Char) : List Char → Bool
  | [] => sub.isEmpty
  | c :: rest => listStartsWith (c :: rest) sub || listContainsSub sub rest

/-- Go `strings.Contains(s, sub)`. -/
def goContains (s sub : String) : Bool :=
  listContainsSub sub.data s.data

/-- Go `strings.HasPrefix(s, p)`. -/
def goStartsWith (s p : String) : Bool :=
  listStartsWith s.data p.data

/-- ASCII lower-casing of one character (the patterns matched in the source
are ASCII, so this captures Go `strings.ToLower` on all relevant inputs). -/
def charToLower (c : Char) : Char :=
  if 'A' ≤ c ∧ c ≤ 'Z' then Char.ofNat (c.toNat + 32) else c

/-- Go `strings.ToLower` (ASCII fragment). -/
def goToLower (s : String) : String :=
  String.mk (s.data.map charToLower)

/-- Go `unicode.IsSpace` on the ASCII whitespace the source can encounter. -/
def isGoSpace (c : Char) : Bool :=
  c == ' ' || c == '\t' || c == '\n' || c == '\r' || c == '\x0b' || c == '\x0c'

/-- Go `strings.TrimSpace` over rune lists. -/
def goTrimSpaceList (s : List Char) : List Char :=
  ((s.dropWhile isGoSpace).reverse.dropWhile isGoSpace).reverse

/-- Go `strings.TrimSpace`. -/
def goTrimSpace (s : String) : String :=
  String.mk (goTrimSpaceList s.data)

/-! ## Browser page data (`internal/browser/manager.go` data types) -/

/-- `browser.ElementInfo`. -/
structure ElementInfo where
  elemType : String
  text : String
  href : String
  selector : String
  index : Int
deriving DecidableEq, Repr

/-- `browser.PageContent`. -/
structure PageContent where
  title : String
  url : String
  elements : List ElementInfo
  mainText : String
deriving DecidableEq, Repr

/-- `browser.TabInfo`. -/
structure TabInfo where
  index : Int
  title : String
  url : String
  active : Bool
deriving DecidableEq, Repr

/-- The fixed pattern list of `agent.isBlockedPage`. -/
def blockedPatterns : List String :=
  ["captcha", "showcaptcha", "challenge", "security check", "verify",
   "bot-check", "robot", "access denied", "403", "blocked"]

/-- `agent.isBlockedPage`: lower-case URL and title and look for any
blocked pattern as a substring. -/
def isBlockedPage (pc : PageContent) : Bool :=
  let url := goToLower pc.url
  let title := goToLower pc.title
  blockedPatterns.any (fun pattern => goContains url pattern || goContains title pattern)

/-- `browser.normalizeURL`. -/
def normalizeURL (url : String) : String :=
  let url := goTrimSpace url
  if url = "" then url
  else if goStartsWith url "http://" || goStartsWith url "https://" then url
  else "https://" ++ url

/-! ## Token counter (`internal/context`, `TokenCounter`) -/

/-- `context.TokenCounter`. -/
structure TokenCounter where
  promptTokens : Int
  completionTokens : Int
  totalTokens : Int
  maxTokens : Int
deriving DecidableEq, Repr

/-- `context.NewTokenCounter`. -/
def newTokenCounter (maxTokens : Int) : TokenCounter :=
  { promptTokens := 0, completionTokens := 0, totalTokens := 0, maxTokens := maxTokens }

/-- `TokenCounter.CanAddTokens`. -/
def TokenCounter.canAddTokens (tc : TokenCounter) (needed : Int) : Bool :=
  decide (tc.totalTokens + needed ≤ tc.maxTokens)

/-- `TokenCounter.RemainingTokens`. -/
def TokenCounter.remainingTokens (tc : TokenCounter) : Int :=
  tc.maxTokens - tc.totalTokens

/-- `TokenCounter.Add`: the counters are incremented first and the limit is
checked afterwards; the error return does not undo the increments.  The
second component models the Go `error` result. -/
def TokenCounter.add (tc : TokenCounter) (prompt completion : Int) :
    TokenCounter × Option String :=
  let p := tc.promptTokens + prompt
  let c := tc.completionTokens + completion
  let t := p + c
  let tc1 : TokenCounter :=
    { tc with promptTokens := p, completionTokens := c, totalTokens := t }
  if t > tc.maxTokens then
    (tc1, some ("token limit exceeded: " ++ toString t ++ "/" ++ toString tc.maxTokens))
  else
    (tc1, none)

/-! ## Conversation history (`internal/context`, `ContextManager`) -/

/-- `context.Message`. -/
structure Message where
  role : String
  content : String
deriving DecidableEq, Repr

/-- `context.ContextManager`. -/
structure ContextManager where
  messages : List Message
  tokenCounter : TokenCounter
  maxHistorySize : Nat
deriving DecidableEq, Repr

/-- `context.NewContextManager`. -/
def newContextManager (maxTokens : Int) (maxHistorySize : Nat) : ContextManager :=
  { messages := [], tokenCounter := newTokenCounter maxTokens, maxHistorySize := maxHistorySize }

/-- The retention loop of `ContextManager.AddMessage`: keep exactly the
entries whose index `i` satisfies `i >= len(messages) - maxHistorySize`
(written without integer truncation as `len ≤ i + k`). -/
def keepRecentWindow (msgs : List Message) (k : Nat) : List Message :=
  ((msgs.enum.filter (fun p => decide (msgs.length ≤ p.1 + k))).map Prod.snd)

/-- `ContextManager.AddMessage`: append, then if the count bound is exceeded
keep only the most recent `maxHistorySize` entries. -/
def ContextManager.addMessage (cm : ContextManager) (role content : String) : ContextManager :=
  if (cm.messages ++ [({ role := role, content := content } : Message)]).length >
      cm.maxHistorySize then
    { cm with
      messages :=
        keepRecentWindow (cm.messages ++ [({ role := role, content := content } : Message)])
          cm.maxHistorySize }
  else
    { cm with messages := cm.messages ++ [({ role := role, content := content } : Message)] }

/-- `ContextManager.RemoveOldest`: drops the oldest `count` messages and
touches nothing else (in particular not the token counter). -/
def ContextManager.removeOldest (cm : ContextManager) (count : Int) : ContextManager :=
  if count ≤ 0 ∨ cm.messages.length = 0 then cm
  else if (cm.messages.length : Int) ≤ count then { cm with messages := [] }
  else { cm with messages := cm.messages.drop count.toNat }

/-- `context.EstimateTokens`. -/
def estimateTokens (text : String) : Int :=
  ((text.length : Int) + 3) / 4

/-- The make-room loop body of `Agent.analyzeAndDecide`
(`for !CanAddTokens(needed) { RemoveOldest(1) }`), iterated `n` times. -/
def makeRoomIter (cm : ContextManager) : Nat → ContextManager
  | 0 => cm
  | n + 1 => makeRoomIter (cm.removeOldest 1) n

/-! ## Oracle decisions (`internal/ai/client.go`) -/

/-- `ai.DecisionResponse`.  Zero values of the Go struct are the defaults. -/
structure DecisionResponse where
  action : String := ""
  selector : String := ""
  text : String := ""
  url : String := ""
  reasoning : String := ""
  isComplete : Bool := false
  nextStep : String := ""
  needsConfirm : Bool := false
deriving DecidableEq, Repr

/-- Splits a rune list at its first newline, when there is one
(Go `strings.SplitN(s, "\n", 2)` producing two parts). -/
def splitFirstNewline : List Char → Option (List Char × List Char)
  | [] => none
  | c :: rest =>
    if c == '\n' then some ([], rest)
    else
      match splitFirstNewline rest with
      | some (a, b) => some (c :: a, b)
      | none => none

/-- Go `strings.LastIndex(s, sub)` as an `Option Nat`: the largest start
index at which `sub` occurs in `s`, if any. -/
def lastIndexOfSub (s sub : List Char) : Option Nat :=
  ((List.range (s.length + 1)).filter (fun i => listStartsWith (s.drop i) sub)).getLast?

/-- The code-fence stripping performed in `Client.MakeDecision` before JSON
parsing: trim, and if the content starts with a fence, drop the first line
and cut at the last closing fence. -/
def stripFence (raw : List Char) : List Char :=
  let content := goTrimSpaceList raw
  if listStartsWith content ("```".data) then
    match splitFirstNewline content with
    | none => content
    | some (_, after) =>
      let c2 := goTrimSpaceList after
      match lastIndexOfSub c2 ("```".data) with
      | none => c2
      | some idx => goTrimSpaceList (c2.take idx)
  else content

/-- The response-consuming tail of `Client.MakeDecision`.  The external
`encoding/json` unmarshaller is a parameter `parse`; its `Except.error`
carries the unmarshal error message.  On parse failure the function returns
the synthetic Decision (action `error`, reasoning = the raw body) TOGETHER
WITH a non-nil error, exactly as the Go code does. -/
def makeDecisionModel (parse : List Char → Except String DecisionResponse)
    (raw : String) : DecisionResponse × Option String :=
  let content := stripFence raw.data
  match parse content with
  | .ok d => (d, none)
  | .error m =>
    ({ action := "error", reasoning := raw, isComplete := false },
     some ("failed to parse decision JSON: " ++ m))

/-- `Client.MakeDecision` as seen by a Go caller that checks `err` first. -/
def makeDecisionExcept (parse : List Char → Except String DecisionResponse)
    (raw : String) : Except String DecisionResponse :=
  match makeDecisionModel parse raw with
  | (_, some m) => .error m
  | (d, none) => .ok d

/-- How `Agent.analyzeAndDecide` consumes a `MakeDecision` result: a non-nil
error is replaced by a synthetic Decision whose reasoning is the error
message (`err.Error()`), and no error is propagated. -/
def analyzeAndDecideResult (res : DecisionResponse × Option String) : DecisionResponse :=
  match res.2 with
  | some m => { action := "error", reasoning := m, isComplete := false }
  | none => res.1

/-! ## Browser driver environment and `Manager` operation wrappers -/

/-- Results of the raw Playwright operations used by `browser.Manager`
(`page.Goto`, `page.Click`, `page.Fill`, `page.Focus`, `page.Type`,
`Keyboard().Press`, `WaitForLoadState`) plus the registry-level
`SwitchToPage` outcome.  An `Except.error` carries the driver error text. -/
structure DriverEnv where
  goto : String → Except String Unit
  clickSel : String → Except String Unit
  fillSel : String → String → Except String Unit
  focusSel : String → Except String Unit
  typeSel : String → String → Except String Unit
  pressText : String → Except String Unit
  waitLoad : Except String Unit
  switchTab : String → Except String Unit
deriving Inhabited

/-- The "page was torn down" test used throughout `manager.go`:
`strings.Contains(err, "Page closed") || strings.Contains(err, "page closed")`. -/
def pageClosedErr (e : String) : Bool :=
  goContains e "Page closed" || goContains e "page closed"

/-- `Manager.Navigate` error handling: a page-closed failure is rewritten to
a distinguishable recoverable error; other failures are wrapped hard errors. -/
def managerNavigate (url : String) (driverRes : Except String Unit) : Except String Unit :=
  match driverRes with
  | .ok _ => .ok ()
  | .error e =>
    if pageClosedErr e then
      .error "page closed during navigation (possibly due to CAPTCHA) - retrying may help"
    else
      .error ("failed to navigate to " ++ url ++ ": " ++ e)

/-- `Manager.Click`: a page-closed failure is swallowed (returns nil). -/
def managerClick (driverRes : Except String Unit) : Except String Unit :=
  match driverRes with
  | .ok _ => .ok ()
  | .error e =>
    if pageClosedErr e then .ok () else .error ("failed to click element: " ++ e)

/-- `Manager.Fill`: a page-closed failure is swallowed (returns nil). -/
def managerFill (driverRes : Except String Unit) : Except String Unit :=
  match driverRes with
  | .ok _ => .ok ()
  | .error e =>
    if pageClosedErr e then .ok () else .error ("failed to fill form: " ++ e)

/-- `Manager.Focus`: a page-closed failure is swallowed (returns nil). -/
def managerFocus (driverRes : Except String Unit) : Except String Unit :=
  match driverRes with
  | .ok _ => .ok ()
  | .error e =>
    if pageClosedErr e then .ok () else .error ("failed to focus element: " ++ e)

/-- `Manager.TypeText`: a page-closed failure is swallowed (returns nil). -/
def managerTypeText (driverRes : Except String Unit) : Except String Unit :=
  match driverRes with
  | .ok _ => .ok ()
  | .error e =>
    if pageClosedErr e then .ok () else .error ("failed to type text: " ++ e)

/-- `Manager.PressKey`: a page-closed failure is swallowed (returns nil). -/
def managerPressKey (driverRes : Except String Unit) : Except String Unit :=
  match driverRes with
  | .ok _ => .ok ()
  | .error e =>
    if pageClosedErr e then .ok () else .error ("failed to press key: " ++ e)

/-- `Manager.WaitForNavigation`: a page-closed failure is swallowed. -/
def managerWaitForNavigation (driverRes : Except String Unit) : Except String Unit :=
  match driverRes with
  | .ok _ => .ok ()
  | .error e =>
    if pageClosedErr e then .ok () else .error ("failed to wait for navigation: " ++ e)

/-! ## `Agent.executeAction` -/

/-- One browser-manager invocation issued by `Agent.executeAction`. -/
inductive BrowserCall where
  | navigate (url : String)
  | waitForNavigation
  | click (selector : String)
  | fill (selector text : String)
  | focus (selector : String)
  | typeText (selector text : String)
  | pressKey (key : String)
  | switchToPage (target : String)
deriving DecidableEq, Repr

/-- The action-dispatch switch of `Agent.executeAction` (after the security
gate).  Returns the Go error result together with the ordered list of
browser-manager calls that were issued. -/
def executeActionCore (drv : DriverEnv) (d : DecisionResponse) :
    Except String Unit × List BrowserCall :=
  let action := goToLower d.action
  if action = "navigate" then
    if d.url ≠ "" then
      match managerNavigate d.url (drv.goto (normalizeURL d.url)) with
      | .error e =>
        if goContains e "page closed" then (.ok (), [.navigate d.url])
        else (.error e, [.navigate d.url])
      | .ok _ => (.ok (), [.navigate d.url, .waitForNavigation])
    else (.ok (), [])
  else if action = "click" then
    if d.selector ≠ "" then
      match managerClick (drv.clickSel d.selector) with
      | .error e => (.error e, [.click d.selector])
      | .ok _ => (.ok (), [.click d.selector, .waitForNavigation])
    else (.ok (), [])
  else if action = "fill" ∨ action = "input" then
    if d.selector ≠ "" ∧ d.text ≠ "" then
      match managerFill (drv.fillSel d.selector d.text) with
      | .error e => (.error e, [.fill d.selector d.text])
      | .ok _ => (.ok (), [.fill d.selector d.text])
    else (.ok (), [])
  else if action = "focus" then
    if d.selector ≠ "" then
      match managerFocus (drv.focusSel d.selector) with
      | .error e => (.error e, [.focus d.selector])
      | .ok _ => (.ok (), [.focus d.selector])
    else (.ok (), [])
  else if action = "type" then
    if d.selector ≠ "" ∧ d.text ≠ "" then
      match managerTypeText (drv.typeSel d.selector d.text) with
      | .error e => (.error e, [.typeText d.selector d.text])
      | .ok _ => (.ok (), [.typeText d.selector d.text])
    else (.ok (), [])
  else if action = "press" ∨ action = "keypress" ∨ action = "key" then
    if d.text ≠ "" then
      match managerPressKey (drv.pressText d.text) with
      | .error e => (.error e, [.pressKey d.text])
      | .ok _ => (.ok (), [.pressKey d.text])
    else (.ok (), [])
  else if action = "switch_tab" ∨ action = "switch" then
    let target := if d.text ≠ "" then d.text else d.url
    match drv.switchTab target with
    | .error e => (.error e, [.switchToPage target])
    | .ok _ => (.ok (), [.switchToPage target])
  else if action = "wait" then (.ok (), [])
  else if action = "complete" then (.ok (), [])
  else if action = "error" then (.ok (), [])
  else (.error ("unknown action: " ++ d.action), [])

/-- `Agent.executeAction`, including the confirmation gate for decisions
flagged `needs_confirm`.  `sec` is the external `RequestConfirmation`
collaborator result. -/
def executeAction (sec : Except String Bool) (drv : DriverEnv) (d : DecisionResponse) :
    Except String Unit × List BrowserCall :=
  if d.needsConfirm then
    match sec with
    | .error e => (.error ("confirmation check failed: " ++ e), [])
    | .ok approved =>
      if approved then executeActionCore drv d
      else (.error "action denied by user", [])
  else executeActionCore drv d

/-! ## Session page registry (`browser.Manager` page tracking) -/

/-- The observable data of one tracked Playwright page. -/
structure PageData where
  title : String
  url : String
deriving DecidableEq, Repr

/-- The page-registry portion of `browser.Manager`: the `pages` map (as an
association list keyed by page identifier), the `pageOrder` list, and the
`activePageID` pointer (`""` when no page is active, as in the source). -/
structure Registry where
  pages : List (String × PageData)
  pageOrder : List String
  activePageID : String
deriving DecidableEq, Repr

/-- The reset registry state (as after `cleanupCurrentContext` or at the
start of `rebuildPageTracking`). -/
def Registry.empty : Registry :=
  { pages := [], pageOrder := [], activePageID := "" }

/-- `Manager.setActivePage`: activates the page only if its id is in the
`pages` map; otherwise does nothing (the `!ok` early return). -/
def Registry.setActivePage (st : Registry) (id : String) : Registry :=
  match st.pages.lookup id with
  | some _ => { st with activePageID := id }
  | none => st

/-- `Manager.registerPage`: skip if the id is already registered, else add
the page to the map and the order list, then activate it when `activate` is
set or no page is currently active. -/
def Registry.registerPage (st : Registry) (id : String) (pd : PageData)
    (activate : Bool) : Registry :=
  if (st.pages.lookup id).isSome then st
  else
    let st1 := { st with pages := st.pages ++ [(id, pd)],
                         pageOrder := st.pageOrder ++ [id] }
    if activate || st.activePageID == "" then st1.setActivePage id else st1

/-- First mutation of `Manager.handlePageClosed`: `delete(m.pages, id)`. -/
def Registry.dropFromPages (st : Registry) (id : String) : Registry :=
  { st with pages := st.pages.eraseP (fun p => p.1 == id) }

/-- Second mutation of `Manager.handlePageClosed`: remove `id` from the
`pageOrder` slice (first occurrence). -/
def Registry.dropFromOrder (st : Registry) (id : String) : Registry :=
  { st with pageOrder := st.pageOrder.erase id }

/-- `Manager.handlePageClosed`: deregister the page (map first, then order
list), and if it was the active page, fall back to the most recently opened
remaining page (the last entry of `pageOrder`) or to no active page when
none remain. -/
def Registry.handlePageClosed (st : Registry) (id : String) : Registry :=
  if ((st.dropFromPages id).dropFromOrder id).activePageID == id then
    match ((st.dropFromPages id).dropFromOrder id).pageOrder.getLast? with
    | some lastId =>
      ({ (st.dropFromPages id).dropFromOrder id with
         activePageID := "" }).setActivePage lastId
    | none => { (st.dropFromPages id).dropFromOrder id with activePageID := "" }
  else (st.dropFromPages id).dropFromOrder id

/-- `Manager.SwitchToPage`: select a tab by empty target (most recent),
1-based index, or case-insensitive substring of title/URL.  Returns the new
registry state and the Go `error` result; on error the state is unchanged. -/
def Registry.switchToPage (st : Registry) (target : String) : Registry × Option String :=
  if st.pageOrder.isEmpty then (st, some "no open pages to switch")
  else if goTrimSpace target == "" then
    match st.pageOrder.getLast? with
    | some lastId => (st.setActivePage lastId, none)
    | none => (st, none)
  else
    match (goTrimSpace target).toInt? with
    | some idx =>
      if idx < 1 ∨ (st.pageOrder.length : Int) < idx then
        (st, some ("tab index " ++ toString idx ++ " out of range"))
      else
        match st.pageOrder.get? (idx.toNat - 1) with
        | some id => (st.setActivePage id, none)
        | none => (st, none)
    | none =>
      match st.pageOrder.find? (fun id =>
          match st.pages.lookup id with
          | some pd =>
            goContains (goToLower pd.title) (goToLower (goTrimSpace target)) ||
            goContains (goToLower pd.url) (goToLower (goTrimSpace target))
          | none => false) with
      | some id => (st.setActivePage id, none)
      | none => (st, some ("no page matches target " ++ goTrimSpace target))

/-- The registration pass of `Manager.rebuildPageTracking`: from a reset
registry, register every page reported by the context, activating a page
exactly when the registry is still empty with no active page. -/
def rebuildFold (pgs : List (String × PageData)) : Registry :=
  pgs.foldl (fun st p =>
    st.registerPage p.1 p.2 (st.pageOrder.isEmpty && st.activePageID == ""))
    Registry.empty

/-- `Manager.rebuildPageTracking`: reset the registry, register every page
reported by the context, then if pages exist but none is active, activate
the lowest-indexed page. -/
def rebuildPageTracking (pgs : List (String × PageData)) : Registry :=
  if !(rebuildFold pgs).pageOrder.isEmpty && (rebuildFold pgs).activePageID == "" then
    match (rebuildFold pgs).pageOrder.get? 0 with
    | some firstId => (rebuildFold pgs).setActivePage firstId
    | none => rebuildFold pgs
  else rebuildFold pgs

/-- Coherence of the page registry: the order list has no duplicates, the
map keys have no duplicates, order list and map track the same id set, and
the active page id (when set) references a registered page. -/
def RegistryCoherent (st : Registry) : Prop :=
  st.pageOrder.Nodup ∧
  (st.pages.map Prod.fst).Nodup ∧
  (∀ id ∈ st.pageOrder, id ∈ st.pages.map Prod.fst) ∧
  (∀ id ∈ st.pages.map Prod.fst, id ∈ st.pageOrder) ∧
  (st.activePageID ≠ "" → st.activePageID ∈ st.pageOrder)

instance (st : Registry) : Decidable (RegistryCoherent st) := by
  unfold RegistryCoherent; infer_instance

/-! ## Orchestration loops (`Agent.ExecuteTask`) -/

/-- The fixed system prompt of `Agent.analyzeAndDecide` (the Go raw string
literal at agent.go:203-218), verbatim.  Its token estimate feeds the
make-room guard and the token accounting of every fallback iteration. -/
def iterSystemPrompt : String :=
  "You are an intelligent web automation agent. Your task is to complete user requests by interacting with web pages.\nYou can:\n- Click on buttons and lin" ++
  "ks (action \"click\")\n- Fill or type into form fields (actions \"fill\" or \"type\"; provide text to enter)\n- Focus an element before typing if necessary (a" ++
  "ction \"focus\")\n- Navigate to URLs (action \"navigate\")\n- Switch between open tabs (action \"switch_tab\"; specify tab index or a fragment of the tab titl" ++
  "e/URL)\n- Press keyboard keys (action \"press\"; set text to the key name, e.g. \"Enter\")\n- Read page content\n- Wait for page load or manual intervention " ++
  "(action \"wait\")\n\nIMPORTANT INSTRUCTIONS:\n- If you encounter a CAPTCHA or security challenge, use the \"wait\" action to give the user time to solve it m" ++
  "anually. Do NOT use \"error\".\n- After waiting, try to navigate again or continue the task.\n- Be systematic, logical, and report when the task is comple" ++
  "te.\n- If no progress can be made after several retries on the same page, only then use \"error\" action."

/-- Per-iteration environment of the fallback iterative mode: the content
snapshot result, the CAPTCHA-wait result (used when the page is blocked),
the user-content string built for the oracle (task + rendered page
description, environment-dependent), the `MakeDecision` result, the
marshalled-decision string used when the reasoning is empty
(`json.Marshal`, an external collaborator), and the `executeAction`
result. -/
structure IterEnv where
  page : Nat → Except String PageContent
  captchaWait : Nat → Except String Unit
  userInput : Nat → String
  makeDec : Nat → Except String DecisionResponse
  marshalled : Nat → String
  actionRes : Nat → Except String Unit

/-- Outcome of the fallback iterative mode of `Agent.ExecuteTask`.
`makeRoomHangs tc needed` marks the iteration state from which the
make-room loop `for !CanAddTokens(needed) { RemoveOldest(1) }` is entered
with `tc.canAddTokens needed = false`: since `RemoveOldest` never changes
the token counter, the guard stays false forever and the program never
returns — the constructor records the stuck counter and the headroom
request. -/
inductive IterOutcome where
  | completed
  | maxIterationsReached
  | contentError (msg : String)
  | captchaWaitFailed (msg : String)
  | makeRoomHangs (tc : TokenCounter) (needed : Int)
deriving DecidableEq, Repr

/-- `decNotComplete r` holds when the `MakeDecision` result does not end
the task: either an error (folded by `analyzeAndDecide` into an `error`
Decision with `IsComplete=false`) or a decision with `is_complete` unset. -/
def decNotComplete : Except String DecisionResponse → Bool
  | .ok d => !d.isComplete
  | .error _ => true

/-- The make-room guard of `Agent.analyzeAndDecide`, evaluated on the
context after the system and user messages were appended:
`CanAddTokens(EstimateTokens(system) + EstimateTokens(user) + 400)`.
When it holds the eviction loop runs zero times; when it fails the loop
never terminates (eviction does not touch the counter). -/
def iterGuardOk (env : IterEnv) (cm : ContextManager) (i : Nat) : Bool :=
  ((cm.addMessage "system" iterSystemPrompt).addMessage "user"
    (env.userInput i)).tokenCounter.canAddTokens
    (estimateTokens iterSystemPrompt + estimateTokens (env.userInput i) + 400)

/-- The context evolution of one fallback iteration through
`analyzeAndDecide` (on the non-hanging path): append the system and user
messages; on a `MakeDecision` error return early (no accounting); otherwise
append the assistant message (reasoning, or the marshalled decision when
the reasoning is empty) and account the tokens with `Add`, retrying once
after `RemoveOldest(1)` when `Add` reports failure — the retry adds on top
of the already-mutated counter, exactly as the source does. -/
def iterStep (env : IterEnv) (cm : ContextManager) (i : Nat) : ContextManager :=
  let cmA := (cm.addMessage "system" iterSystemPrompt).addMessage "user" (env.userInput i)
  match env.makeDec i with
  | .error _ => cmA
  | .ok d =>
    let cmB :=
      if d.reasoning ≠ "" then cmA.addMessage "assistant" d.reasoning
      else cmA.addMessage "assistant" (env.marshalled i)
    let p := estimateTokens iterSystemPrompt + estimateTokens (env.userInput i)
    let c := estimateTokens d.reasoning
    match cmB.tokenCounter.add p c with
    | (tc1, some _) =>
      let cmD := ({ cmB with tokenCounter := tc1 }).removeOldest 1
      match cmD.tokenCounter.add p c with
      | (tc2, _) => { cmD with tokenCounter := tc2 }
    | (tc1, none) => { cmB with tokenCounter := tc1 }

/-- The context at entry of the `k`-th iteration after starting iteration
`i` in context `cm`, assuming every earlier iteration took the normal
(unblocked, non-hanging) path. -/
def iterCtxFrom (env : IterEnv) (cm : ContextManager) (i : Nat) : Nat → ContextManager
  | 0 => cm
  | k + 1 => iterStep env (iterCtxFrom env cm i k) (i + k)

/-- The context at entry of iteration `n` of a run starting at iteration 0. -/
def iterCtxAfter (env : IterEnv) (cm : ContextManager) (n : Nat) : ContextManager :=
  iterCtxFrom env cm 0 n

/-- The fallback iteration loop of `Agent.ExecuteTask`
(`for iteration := 0; iteration < maxIterations; iteration++`), threading
the conversation/token state through `analyzeAndDecide` per iteration and
modelled with `fuel` = remaining iterations.  Returns the outcome and the
number of loop-body entries.  A blocked page waits for the CAPTCHA and
continues without touching the context; otherwise the make-room guard is
evaluated — if it fails the eviction loop diverges (`makeRoomHangs`);
if it holds, a non-complete decision dispatches the action and continues
regardless of the action's result, with the context advanced by
`iterStep`. -/
def iterLoop (env : IterEnv) : ContextManager → Nat → Nat → IterOutcome × Nat
  | _, _, 0 => (.maxIterationsReached, 0)
  | cm, i, fuel + 1 =>
    match env.page i with
    | .error e => (.contentError e, 1)
    | .ok pc =>
      if isBlockedPage pc then
        match env.captchaWait i with
        | .error e => (.captchaWaitFailed e, 1)
        | .ok _ =>
          let r := iterLoop env cm (i + 1) fuel
          (r.1, r.2 + 1)
      else
        if iterGuardOk env cm i then
          match env.makeDec i with
          | .error _ =>
            let r := iterLoop env (iterStep env cm i) (i + 1) fuel
            (r.1, r.2 + 1)
          | .ok d =>
            if d.isComplete then (.completed, 1)
            else
              let _ := env.actionRes i
              let r := iterLoop env (iterStep env cm i) (i + 1) fuel
              (r.1, r.2 + 1)
        else
          (.makeRoomHangs
            ((cm.addMessage "system" iterSystemPrompt).addMessage "user"
              (env.userInput i)).tokenCounter
            (estimateTokens iterSystemPrompt + estimateTokens (env.userInput i) + 400), 1)

/-- The fallback iterative mode with the agent's iteration cap
(`maxIterations`, set to 20 in `NewAgent`), started in context `cm`. -/
def executeTaskFallback (env : IterEnv) (cm : ContextManager) (maxIterations : Nat) :
    IterOutcome × Nat :=
  iterLoop env cm 0 maxIterations

/-- The context state at the start of the fallback mode: `NewAgent` builds
`NewContextManager(8000, 20)` and `ExecuteTask` clears the history and
resets the counter before the loop. -/
def agentInitialContext : ContextManager :=
  newContextManager 8000 20

/-- The token-counter projection of one fallback iteration's accounting:
`Add(p, c)`, retried once on top of the already-mutated counter when the
first `Add` reports failure (message eviction does not touch the counter).
Proof abstraction used to compute runs of `iterLoop` without evaluating
the prompt strings. -/
def tokStep (p c : Int) (tc : TokenCounter) : TokenCounter :=
  match tc.add p c with
  | (tc1, some _) => (tc1.add p c).1
  | (tc1, none) => tc1

/-- `k`-fold iteration of `tokStep`. -/
def tokIter (p c : Int) : Nat → TokenCounter → TokenCounter
  | 0, tc => tc
  | k + 1, tc => tokStep p c (tokIter p c k tc)

/-- The counter-only projection of the fallback loop for an environment
with benign pages and a uniform, never-complete decision: per iteration,
check the make-room guard against `needed`, hang if it fails, otherwise
account `p`/`c` and continue. -/
def tokOnlyLoop (needed p c : Int) : TokenCounter → Nat → IterOutcome × Nat
  | _, 0 => (.maxIterationsReached, 0)
  | tc, fuel + 1 =>
    if tc.canAddTokens needed then
      let r := tokOnlyLoop needed p c (tokStep p c tc) fuel
      (r.1, r.2 + 1)
    else (.makeRoomHangs tc needed, 1)

/-- `pageOkNotBlocked r` holds when the content snapshot succeeded and the
page is not flagged by the block detector. -/
def pageOkNotBlocked : Except String PageContent → Bool
  | .ok pc => !(isBlockedPage pc)
  | .error _ => false

/-- Per-step environment of the plan-execution mode: content snapshot,
CAPTCHA wait, `MakeDecision` result, and `executeAction` result for step
index `i`. -/
structure PlanEnv where
  page : Nat → Except String PageContent
  captchaWait : Nat → Except String Unit
  makeDec : Nat → Except String DecisionResponse
  actionRes : Nat → Except String Unit

/-- Outcome of the plan-execution mode of `Agent.ExecuteTask`. -/
inductive PlanOutcome where
  | planCompleted
  | contentError (msg : String)
  | captchaWaitFailed (msg : String)
  | decisionFailed (step : Nat) (msg : String)
deriving DecidableEq, Repr

/-- `decOk r` holds when `MakeDecision` returned without error. -/
def decOk : Except String DecisionResponse → Bool
  | .ok _ => true
  | .error _ => false

/-- The plan-execution loop of `Agent.ExecuteTask`: one body entry per plan
step, in order.  A blocked page waits for the CAPTCHA and then proceeds
with the same step; a `MakeDecision` error aborts the task; an
`executeAction` failure is logged and the loop continues; after the last
step the task completes.  Returns the outcome and the list of step indices
whose bodies were entered. -/
def planLoop (env : PlanEnv) : List String → Nat → PlanOutcome × List Nat
  | [], _ => (.planCompleted, [])
  | _ :: rest, i =>
    match env.page i with
    | .error e => (.contentError ("failed to get page content: " ++ e), [i])
    | .ok pc =>
      let waited : Except String Unit :=
        if isBlockedPage pc then env.captchaWait i else .ok ()
      match waited with
      | .error e => (.captchaWaitFailed ("CAPTCHA wait failed: " ++ e), [i])
      | .ok _ =>
        match env.makeDec i with
        | .error e => (.decisionFailed (i + 1) e, [i])
        | .ok _ =>
          let _ := env.actionRes i
          let r := planLoop env rest (i + 1)
          (r.1, i :: r.2)

/-! ## Concrete fixtures used to instantiate the theorems -/

/-- An ordinary page that the block detector does not flag. -/
def benignPage : PageContent :=
  { title := "Example", url := "https://example.com", elements := [], mainText := "" }

/-- Iterative-mode environment with small prompts: snapshots always succeed
on a benign page, the oracle never sets `is_complete`, and every
iteration's make-room guard holds. -/
def c3Decision : DecisionResponse :=
  { action := "wait", reasoning := "ok" }

def envC3ok : IterEnv :=
  { page := fun _ => .ok benignPage,
    captchaWait := fun _ => .ok (),
    userInput := fun _ => "",
    makeDec := fun _ => .ok c3Decision,
    marshalled := fun _ => "",
    actionRes := fun _ => .ok () }

/-- An ordinary-sized user content string (a 2400-character page
description), whose token estimate is 600. -/
def hangUserInput : String :=
  String.mk (List.replicate 2400 'x')

/-- The same benign environment but with an ordinary-sized user content
string each iteration: token accrual then trips the make-room guard well
before the 20th iteration. -/
def envC3hang : IterEnv :=
  { envC3ok with userInput := fun _ => hangUserInput }

/-- A three-step plan. -/
def stepsC4 : List String :=
  ["open the page", "click the button", "save the result"]

/-- Plan-mode environment in which the second step's action execution
fails. -/
def envC4 : PlanEnv :=
  { page := fun _ => .ok benignPage,
    captchaWait := fun _ => .ok (),
    makeDec := fun _ => .ok { action := "click", selector := "#btn" },
    actionRes := fun i => if i == 1 then .error "action failed" else .ok () }

/-- A JSON unmarshaller rejecting every body (the behaviour of
`json.Unmarshal` on a non-JSON response). -/
def badParse : List Char → Except String DecisionResponse :=
  fun _ => .error "invalid character"

/-- Plan-mode environment whose first `MakeDecision` consumes a malformed
oracle body. -/
def envC7 : PlanEnv :=
  { page := fun _ => .ok benignPage,
    captchaWait := fun _ => .ok (),
    makeDec := fun _ => makeDecisionExcept badParse "not json",
    actionRes := fun _ => .ok () }

/-- A driver whose every operation fails with the error text `e`. -/
def drvAllErr (e : String) : DriverEnv :=
  { goto := fun _ => .error e,
    clickSel := fun _ => .error e,
    fillSel := fun _ _ => .error e,
    focusSel := fun _ => .error e,
    typeSel := fun _ _ => .error e,
    pressText := fun _ => .error e,
    waitLoad := .error e,
    switchTab := fun _ => .error e }

/-- A driver whose every operation succeeds. -/
def drvAllOk : DriverEnv :=
  { goto := fun _ => .ok (),
    clickSel := fun _ => .ok (),
    fillSel := fun _ _ => .ok (),
    focusSel := fun _ => .ok (),
    typeSel := fun _ _ => .ok (),
    pressText := fun _ => .ok (),
    waitLoad := .ok (),
    switchTab := fun _ => .ok () }

/-- A registry with three open pages, the most recently opened one active. -/
def st0reg : Registry :=
  { pages := [("p1", { title := "A", url := "https://a.example" }),
              ("p2", { title := "B", url := "https://b.example" }),
              ("p3", { title := "C", url := "https://c.example" })],
    pageOrder := ["p1", "p2", "p3"],
    activePageID := "p3" }

/-! # Theorems -/

/-! ## Claim C1 — `TokenCounter.Add` on budget overflow -/

/-- Claim C1 as stated is false: starting from a fresh counter with maximum
10, `Add(8,0)` succeeds, and the subsequent `Add(5,0)` reports failure but
still mutates the counter, leaving the total at 13 > 10 and the remaining
tokens negative. -/
theorem c1_add_mutates_on_failure :
    ((newTokenCounter 10).add 8 0).2 = none ∧
    ((newTokenCounter 10).add 8 0).1.totalTokens = 8 ∧
    ((((newTokenCounter 10).add 8 0).1.add 5 0).2).isSome = true ∧
    (((newTokenCounter 10).add 8 0).1.add 5 0).1.totalTokens = 13 ∧
    (((newTokenCounter 10).add 8 0).1.add 5 0).1.totalTokens >
      (((newTokenCounter 10).add 8 0).1.add 5 0).1.maxTokens ∧
    (((newTokenCounter 10).add 8 0).1.add 5 0).1.remainingTokens < 0 ∧
    (((newTokenCounter 10).add 8 0).1.add 5 0).1 ≠ ((newTokenCounter 10).add 8 0).1 := by
  decide

/-- Claim C1, amended: `Add` always applies the mutation — the prompt,
completion, and total counters are updated unconditionally — and it reports
failure exactly when the new total exceeds the maximum.  Consequently a
failed `Add` leaves the total above the maximum and `RemainingTokens`
negative; the no-mutation-on-failure guarantee does not hold. -/
theorem c1_amended_add_semantics (tc : TokenCounter) (p c : Int) :
    ((tc.add p c).1.promptTokens = tc.promptTokens + p) ∧
    ((tc.add p c).1.completionTokens = tc.completionTokens + c) ∧
    ((tc.add p c).1.totalTokens = tc.promptTokens + p + (tc.completionTokens + c)) ∧
    ((tc.add p c).1.maxTokens = tc.maxTokens) ∧
    (((tc.add p c).2.isSome = true) ↔
      tc.promptTokens + p + (tc.completionTokens + c) > tc.maxTokens) := by
  unfold TokenCounter.add
  dsimp only
  split
  case isTrue h => exact ⟨rfl, rfl, rfl, rfl, by simpa using h⟩
  case isFalse h => exact ⟨rfl, rfl, rfl, rfl, by simpa using h⟩

/-! ## Claim C2 — the make-room eviction loop -/

/-- `RemoveOldest` never touches the token counter (nor the history bound). -/
theorem removeOldest_preserves_tokenCounter (cm : ContextManager) (count : Int) :
    (cm.removeOldest count).tokenCounter = cm.tokenCounter ∧
    (cm.removeOldest count).maxHistorySize = cm.maxHistorySize := by
  unfold ContextManager.removeOldest
  split
  · exact ⟨rfl, rfl⟩
  · split
    · exact ⟨rfl, rfl⟩
    · exact ⟨rfl, rfl⟩

/-- Claim C2 concerns the loop
`for !CanAddTokens(needed) { RemoveOldest(1) }` in `Agent.analyzeAndDecide`.
The loop body never changes the token counter, so whenever the guard fails
at entry it still fails after any number `n` of iterations: the loop never
terminates, and the "cannot make room" condition is never surfaced as a
task-level failure.  The code contradicts the specified make-room protocol. -/
theorem c2_make_room_loop_never_exits (cm : ContextManager) (needed : Int)
    (h : cm.tokenCounter.canAddTokens needed = false) :
    ∀ n : Nat, (makeRoomIter cm n).tokenCounter.canAddTokens needed = false := by
  intro n
  induction n generalizing cm with
  | zero => simpa [makeRoomIter] using h
  | succ k ih =>
    have hpres := (removeOldest_preserves_tokenCounter cm 1).1
    have h1 : (cm.removeOldest 1).tokenCounter.canAddTokens needed = false := by
      rw [hpres]; exact h
    simpa [makeRoomIter] using ih (cm.removeOldest 1) h1

/-- Witness for C2: a context manager whose counter stands at 7800 of 8000
tokens, asked for 900 more, never satisfies the guard even after five
evictions. -/
theorem c2_make_room_loop_never_exits_witness :
    (({ messages := [{ role := "user", content := "hi" }],
        tokenCounter :=
          { promptTokens := 4000, completionTokens := 3800,
            totalTokens := 7800, maxTokens := 8000 },
        maxHistorySize := 20 } : ContextManager)).tokenCounter.canAddTokens 900 = false ∧
    (makeRoomIter
      ({ messages := [{ role := "user", content := "hi" }],
         tokenCounter :=
           { promptTokens := 4000, completionTokens := 3800,
             totalTokens := 7800, maxTokens := 8000 },
         maxHistorySize := 20 } : ContextManager) 5).tokenCounter.canAddTokens 900 = false :=
  ⟨by decide,
   c2_make_room_loop_never_exits
     { messages := [{ role := "user", content := "hi" }],
       tokenCounter :=
         { promptTokens := 4000, completionTokens := 3800,
           totalTokens := 7800, maxTokens := 8000 },
       maxHistorySize := 20 } 900 (by decide) 5⟩

/-! ## Claim C6 — the history sliding window -/

/-- The index-filtered retention loop keeps exactly the suffix of the list
whose indices are at least `L - k` (indices starting at `n`). -/
theorem enumFromFilterWindow (k L : Nat) :
    ∀ (l : List Message) (n : Nat),
      ((l.enumFrom n).filter (fun p => decide (L ≤ p.1 + k))).map Prod.snd
        = l.drop (L - k - n) := by
  intro l
  induction l with
  | nil => intro n; simp
  | cons a t ih =>
    intro n
    have ht := ih (n + 1)
    by_cases h : L ≤ n + k
    · have hd : L - k - n = 0 := by omega
      have hd1 : L - k - (n + 1) = 0 := by omega
      rw [hd1] at ht
      simp [List.enumFrom, List.filter_cons, h, hd, ht]
    · have hd : L - k - n = (L - k - (n + 1)) + 1 := by omega
      rw [hd]
      simp [List.enumFrom, List.filter_cons, h, ht]

/-- `keepRecentWindow` is the suffix of the last `k` entries. -/
theorem keepRecentWindow_eq_drop (msgs : List Message) (k : Nat) :
    keepRecentWindow msgs k = msgs.drop (msgs.length - k) := by
  have h := enumFromFilterWindow k msgs.length msgs 0
  simpa [keepRecentWindow, List.enum] using h

/-- `AddMessage` changes only the message list. -/
theorem addMessage_preserves_rest (cm : ContextManager) (r c : String) :
    (cm.addMessage r c).maxHistorySize = cm.maxHistorySize ∧
    (cm.addMessage r c).tokenCounter = cm.tokenCounter := by
  unfold ContextManager.addMessage
  split
  · exact ⟨rfl, rfl⟩
  · exact ⟨rfl, rfl⟩

/-- One `AddMessage` step keeps the message list equal to the `K`-bounded
suffix window of everything appended so far. -/
theorem addMessage_window (cm : ContextManager) (K : Nat) (W : List Message)
    (r c : String)
    (hK : cm.maxHistorySize = K)
    (hm : cm.messages = W.drop (W.length - K)) :
    (cm.addMessage r c).messages
      = (W ++ [({ role := r, content := c } : Message)]).drop (W.length + 1 - K) := by
  have hlen : cm.messages.length = W.length - (W.length - K) := by
    rw [hm, List.length_drop]
  have hlen2 : (cm.messages ++ [({ role := r, content := c } : Message)]).length
      = (W.length - (W.length - K)) + 1 := by
    rw [List.length_append, hlen, List.length_singleton]
  unfold ContextManager.addMessage
  rw [hK]
  by_cases hgt : (cm.messages ++ [({ role := r, content := c } : Message)]).length > K
  · rw [if_pos hgt]
    dsimp only
    have hWK : K ≤ W.length := by
      rw [hlen2] at hgt
      omega
    rw [keepRecentWindow_eq_drop, hlen2, hm]
    have hq : W.length - (W.length - K) + 1 - K = 1 := by omega
    rw [hq]
    rw [List.drop_append_eq_append_drop, List.drop_append_eq_append_drop,
        List.drop_drop]
    have h1 : W.length - K + 1 = W.length + 1 - K := by omega
    rw [h1]
    have h2 : 1 - (List.drop (W.length - K) W).length = W.length + 1 - K - W.length := by
      rw [List.length_drop]
      omega
    rw [h2]
  · rw [if_neg hgt]
    dsimp only
    push_neg at hgt
    have hWlt : W.length < K := by
      rw [hlen2] at hgt
      omega
    have h0 : W.length - K = 0 := by omega
    have h1 : W.length + 1 - K = 0 := by omega
    rw [hm, h0, h1, List.drop_zero, List.drop_zero]

/-- Folding `AddMessage` over a batch of inputs keeps the message list equal
to the `K`-bounded suffix window of everything ever appended. -/
theorem foldl_addMessage_window (K : Nat) :
    ∀ (inputs : List (String × String)) (cm : ContextManager) (W : List Message),
      cm.maxHistorySize = K →
      cm.messages = W.drop (W.length - K) →
      (inputs.foldl (fun acc p => acc.addMessage p.1 p.2) cm).messages
        = (W ++ inputs.map (fun p => ({ role := p.1, content := p.2 } : Message))).drop
            ((W.length + inputs.length) - K) := by
  intro inputs
  induction inputs with
  | nil =>
    intro cm W h1 h2
    simpa using h2
  | cons a t ih =>
    intro cm W h1 h2
    have hrest := addMessage_preserves_rest cm a.1 a.2
    have hstep := addMessage_window cm K W a.1 a.2 h1 h2
    have hstep' : (cm.addMessage a.1 a.2).messages
        = (W ++ [({ role := a.1, content := a.2 } : Message)]).drop
            ((W ++ [({ role := a.1, content := a.2 } : Message)]).length - K) := by
      rw [hstep, List.length_append, List.length_singleton]
    have hK' : (cm.addMessage a.1 a.2).maxHistorySize = K := by
      rw [hrest.1, h1]
    have hrec := ih (cm.addMessage a.1 a.2)
      (W ++ [({ role := a.1, content := a.2 } : Message)]) hK' hstep'
    simp only [List.foldl_cons]
    rw [hrec, List.append_assoc, List.singleton_append, List.length_append,
        List.length_singleton, List.length_cons]
    simp only [List.map_cons]
    congr 1
    omega

/-- Claim C6: for every ContextManager configured with maximum entry count
`K`, after any sequence of `AddMessage` calls the entry count is at most
`K` and the retained entries are exactly the `K` most recently appended
messages in arrival order (all of them when fewer than `K` were appended) —
a pure sliding window. -/
theorem c6_history_sliding_window (maxTokens : Int) (K : Nat)
    (inputs : List (String × String)) :
    ((inputs.foldl (fun acc p => acc.addMessage p.1 p.2)
        (newContextManager maxTokens K)).messages.length ≤ K) ∧
    ((inputs.foldl (fun acc p => acc.addMessage p.1 p.2)
        (newContextManager maxTokens K)).messages
      = (inputs.map (fun p => ({ role := p.1, content := p.2 } : Message))).drop
          (inputs.length - K)) := by
  have h := foldl_addMessage_window K inputs (newContextManager maxTokens K) []
    rfl (by simp [newContextManager])
  simp only [List.nil_append, List.length_nil, Nat.zero_add] at h
  refine ⟨?_, h⟩
  rw [h, List.length_drop, List.length_map]
  omega

/-! ## Claim C3 — the fallback iterative mode and the iteration cap -/

/-- Starting one iteration later with the stepped context describes the
same entry states. -/
theorem iterCtxFrom_shift (env : IterEnv) (cm : ContextManager) (i : Nat) :
    ∀ k, iterCtxFrom env cm i (k + 1) = iterCtxFrom env (iterStep env cm i) (i + 1) k := by
  intro k
  induction k with
  | zero => rfl
  | succ k ih =>
    show iterStep env (iterCtxFrom env cm i (k + 1)) (i + (k + 1))
      = iterStep env (iterCtxFrom env (iterStep env cm i) (i + 1) k) (i + 1 + k)
    rw [ih, show i + (k + 1) = i + 1 + k by omega]

/-- If every remaining iteration sees a successful, unblocked snapshot, a
decision that does not complete the task, and a make-room guard that holds
at its entry state, the fallback loop consumes all its fuel and ends with
the max-iterations outcome, having entered the body once per unit of
fuel. -/
theorem iterLoop_guarded_no_complete (env : IterEnv) :
    ∀ (fuel i : Nat) (cm : ContextManager),
      (∀ k, k < fuel → pageOkNotBlocked (env.page (i + k)) = true) →
      (∀ k, k < fuel → decNotComplete (env.makeDec (i + k)) = true) →
      (∀ k, k < fuel → iterGuardOk env (iterCtxFrom env cm i k) (i + k) = true) →
      iterLoop env cm i fuel = (.maxIterationsReached, fuel) := by
  intro fuel
  induction fuel with
  | zero => intro i cm _ _ _; rfl
  | succ f ih =>
    intro i cm hp hd hg
    have hp0 : pageOkNotBlocked (env.page i) = true := by
      have := hp 0 (by omega)
      simpa using this
    have hd0 : decNotComplete (env.makeDec i) = true := by
      have := hd 0 (by omega)
      simpa using this
    have hg0 : iterGuardOk env cm i = true := by
      have := hg 0 (by omega)
      simpa [iterCtxFrom] using this
    have hp' : ∀ k, k < f → pageOkNotBlocked (env.page (i + 1 + k)) = true := by
      intro k hk
      have := hp (k + 1) (by omega)
      rwa [show i + (k + 1) = i + 1 + k by omega] at this
    have hd' : ∀ k, k < f → decNotComplete (env.makeDec (i + 1 + k)) = true := by
      intro k hk
      have := hd (k + 1) (by omega)
      rwa [show i + (k + 1) = i + 1 + k by omega] at this
    have hg' : ∀ k, k < f →
        iterGuardOk env (iterCtxFrom env (iterStep env cm i) (i + 1) k) (i + 1 + k)
          = true := by
      intro k hk
      have := hg (k + 1) (by omega)
      rw [iterCtxFrom_shift] at this
      rwa [show i + (k + 1) = i + 1 + k by omega] at this
    have hrec := ih (i + 1) (iterStep env cm i) hp' hd' hg'
    cases hpg : env.page i with
    | error e =>
      rw [hpg] at hp0
      simp [pageOkNotBlocked] at hp0
    | ok pc =>
      have hnb : isBlockedPage pc = false := by
        rw [hpg] at hp0
        simpa [pageOkNotBlocked] using hp0
      cases hmd : env.makeDec i with
      | error e =>
        simp [iterLoop, hpg, hnb, hg0, hmd, hrec]
      | ok d =>
        have hdc : d.isComplete = false := by
          rw [hmd] at hd0
          simpa [decNotComplete] using hd0
        simp [iterLoop, hpg, hnb, hg0, hmd, hdc, hrec]

/-- `AddMessage` never changes the token counter. -/
theorem addMessage_tokenCounter (cm : ContextManager) (r c : String) :
    (cm.addMessage r c).tokenCounter = cm.tokenCounter :=
  (addMessage_preserves_rest cm r c).2

/-- `RemoveOldest` never changes the token counter. -/
theorem removeOldest_tokenCounter (cm : ContextManager) (n : Int) :
    (cm.removeOldest n).tokenCounter = cm.tokenCounter :=
  (removeOldest_preserves_tokenCounter cm n).1

/-- The benign fixture page is not flagged by the block detector. -/
theorem benignPage_not_blocked : isBlockedPage benignPage = false := by
  decide

set_option maxRecDepth 2000 in
/-- The analyzeAndDecide system prompt is 1002 bytes long. -/
theorem iterSystemPrompt_length : iterSystemPrompt.length = 1002 := by
  unfold iterSystemPrompt
  rw [String.length_append, String.length_append, String.length_append,
      String.length_append, String.length_append, String.length_append]
  decide

/-- Token estimate of the system prompt: (1002 + 3) / 4 = 251. -/
theorem est_iterSystemPrompt : estimateTokens iterSystemPrompt = 251 := by
  unfold estimateTokens
  rw [iterSystemPrompt_length]
  decide

/-- Token estimate of the 2400-character fixture user content: 600. -/
theorem est_hangUserInput : estimateTokens hangUserInput = 600 := by
  unfold estimateTokens hangUserInput
  rw [show (String.mk (List.replicate 2400 'x')).length = 2400 from by
    show (List.replicate 2400 'x').length = 2400
    rw [List.length_replicate]]
  decide

/-- The make-room guard depends only on the token counter and the prompt
estimates (the two preceding `AddMessage` calls do not touch the counter). -/
theorem iterGuardOk_eq (env : IterEnv) (cm : ContextManager) (i : Nat) :
    iterGuardOk env cm i
      = cm.tokenCounter.canAddTokens
          (estimateTokens iterSystemPrompt + estimateTokens (env.userInput i) + 400) := by
  unfold iterGuardOk
  rw [addMessage_tokenCounter, addMessage_tokenCounter]

/-- On a successful decision with non-empty reasoning, one iteration moves
the token counter by exactly `tokStep` of the prompt/completion
estimates. -/
theorem iterStep_counter (env : IterEnv) (cm : ContextManager) (i : Nat)
    (d : DecisionResponse) (hmd : env.makeDec i = .ok d) (hrne : d.reasoning ≠ "") :
    (iterStep env cm i).tokenCounter
      = tokStep (estimateTokens iterSystemPrompt + estimateTokens (env.userInput i))
          (estimateTokens d.reasoning) cm.tokenCounter := by
  unfold iterStep tokStep
  rw [hmd]
  simp only [hrne, ne_eq, not_false_eq_true, if_true, addMessage_tokenCounter]
  cases hadd : cm.tokenCounter.add
      (estimateTokens iterSystemPrompt + estimateTokens (env.userInput i))
      (estimateTokens d.reasoning) with
  | mk tc1 e =>
    cases e with
    | some m => simp [removeOldest_tokenCounter]
    | none => simp

/-- The entry contexts of a uniform run project to `tokIter` on the
counter. -/
theorem iterCtxFrom_counter (env : IterEnv) (d : DecisionResponse)
    (hdec : ∀ i, env.makeDec i = .ok d) (hrne : d.reasoning ≠ "") (U : Int)
    (hU : ∀ i, estimateTokens (env.userInput i) = U) :
    ∀ (k : Nat) (cm : ContextManager) (i : Nat),
      (iterCtxFrom env cm i k).tokenCounter
        = tokIter (estimateTokens iterSystemPrompt + U) (estimateTokens d.reasoning) k
            cm.tokenCounter := by
  intro k
  induction k with
  | zero => intro cm i; rfl
  | succ k ih =>
    intro cm i
    show (iterStep env (iterCtxFrom env cm i k) (i + k)).tokenCounter = _
    rw [iterStep_counter env _ _ d (hdec _) hrne, hU, ih]
    rfl

/-- Bisimulation: over an environment with benign pages and a uniform,
never-complete decision, the fallback loop computes exactly the
counter-only loop. -/
theorem iterLoop_uniform (env : IterEnv) (d : DecisionResponse) (U : Int)
    (hpage : ∀ i, env.page i = .ok benignPage)
    (hdec : ∀ i, env.makeDec i = .ok d)
    (hrne : d.reasoning ≠ "")
    (hcomp : d.isComplete = false)
    (hU : ∀ i, estimateTokens (env.userInput i) = U) :
    ∀ (fuel i : Nat) (cm : ContextManager),
      iterLoop env cm i fuel
        = tokOnlyLoop (estimateTokens iterSystemPrompt + U + 400)
            (estimateTokens iterSystemPrompt + U) (estimateTokens d.reasoning)
            cm.tokenCounter fuel := by
  intro fuel
  induction fuel with
  | zero => intro i cm; rfl
  | succ f ih =>
    intro i cm
    have hguard : iterGuardOk env cm i
        = cm.tokenCounter.canAddTokens
            (estimateTokens iterSystemPrompt + U + 400) := by
      rw [iterGuardOk_eq, hU i]
    have hstep : (iterStep env cm i).tokenCounter
        = tokStep (estimateTokens iterSystemPrompt + U) (estimateTokens d.reasoning)
            cm.tokenCounter := by
      rw [iterStep_counter env cm i d (hdec i) hrne, hU i]
    by_cases hg : cm.tokenCounter.canAddTokens
        (estimateTokens iterSystemPrompt + U + 400) = true
    · have hrec := ih (i + 1) (iterStep env cm i)
      rw [hstep] at hrec
      simp [iterLoop, tokOnlyLoop, hpage i, benignPage_not_blocked, hguard, hg,
            hdec i, hcomp, hrec]
    · have hg' : cm.tokenCounter.canAddTokens
          (estimateTokens iterSystemPrompt + U + 400) = false := by
        revert hg
        cases cm.tokenCounter.canAddTokens
          (estimateTokens iterSystemPrompt + U + 400) <;> simp
      simp [iterLoop, tokOnlyLoop, hpage i, benignPage_not_blocked, hguard, hg',
            hU i, addMessage_tokenCounter]

/-- Token estimate of the empty string: 0. -/
theorem est_empty : estimateTokens "" = 0 := by
  decide

set_option maxRecDepth 4000 in
/-- Claim C3 as stated is false of the program: with the agent's own budget
(max 8000 tokens) and ordinary prompt sizes (a 2400-character page/user
content each iteration, oracle reasoning "ok", never complete), token
accrual trips the make-room guard at the 9th iteration attempt: the
fallback run reaches `makeRoomHangs` after entering the body only 9 times
— the eviction loop is then entered with `CanAddTokens(1251) = false` on
the counter 6816/8000 and (second and third conjuncts) the guard is still
false even after 50 evictions, so `ExecuteTask` hangs mid-iteration and
never performs 20 attempts nor returns the max-iterations failure. -/
theorem c3_fallback_hangs_counterexample :
    executeTaskFallback envC3hang agentInitialContext 20
      = (.makeRoomHangs
          { promptTokens := 6808, completionTokens := 8, totalTokens := 6816,
            maxTokens := 8000 } 1251, 9) ∧
    ({ promptTokens := 6808, completionTokens := 8, totalTokens := 6816,
       maxTokens := 8000 } : TokenCounter).canAddTokens 1251 = false ∧
    (makeRoomIter
      { messages := [],
        tokenCounter :=
          { promptTokens := 6808, completionTokens := 8, totalTokens := 6816,
            maxTokens := 8000 },
        maxHistorySize := 20 } 50).tokenCounter.canAddTokens 1251 = false ∧
    ((.makeRoomHangs
        ({ promptTokens := 6808, completionTokens := 8, totalTokens := 6816,
           maxTokens := 8000 } : TokenCounter) 1251, 9) : IterOutcome × Nat)
      ≠ (.maxIterationsReached, 20) := by
  refine ⟨?_, by decide, by decide, by decide⟩
  unfold executeTaskFallback
  rw [iterLoop_uniform envC3hang c3Decision 600 (fun _ => rfl) (fun _ => rfl)
      (by decide) rfl (fun _ => est_hangUserInput)]
  rw [est_iterSystemPrompt]
  show tokOnlyLoop (251 + 600 + 400) (251 + 600) (estimateTokens c3Decision.reasoning)
    (newTokenCounter 8000) 20 = _
  decide

/-- Claim C3, amended: in the fallback iterative mode with the cap of 20,
when the oracle never sets `is_complete` (snapshots succeeding on
unblocked pages) AND every iteration's make-room guard holds at its entry
state, `ExecuteTask` performs exactly 20 iteration attempts and then
returns the max-iterations (budget exhaustion) failure; when instead some
iteration's guard fails, the eviction loop diverges and the fallback mode
hangs mid-iteration without returning (see the counterexample).  Action
results are unconstrained: action failures do not change the count. -/
theorem c3_amended_fallback_iterations (env : IterEnv)
    (hp : ∀ i, i < 20 → pageOkNotBlocked (env.page i) = true)
    (hd : ∀ i, i < 20 → decNotComplete (env.makeDec i) = true)
    (hg : ∀ i, i < 20 → iterGuardOk env (iterCtxAfter env agentInitialContext i) i = true) :
    executeTaskFallback env agentInitialContext 20 = (.maxIterationsReached, 20) := by
  unfold executeTaskFallback
  exact iterLoop_guarded_no_complete env 20 0 agentInitialContext
    (fun k hk => by simpa using hp k hk)
    (fun k hk => by simpa using hd k hk)
    (fun k hk => by simpa [iterCtxAfter] using hg k hk)

/-- Witness for the amended C3 at a concrete small-prompt environment:
guards are discharged through the counter projection (totals grow by 252
per iteration against the 8000 budget, so all 20 guards hold). -/
theorem c3_amended_fallback_iterations_witness :
    pageOkNotBlocked (envC3ok.page 0) = true ∧
    decNotComplete (envC3ok.makeDec 0) = true ∧
    executeTaskFallback envC3ok agentInitialContext 20 = (.maxIterationsReached, 20) := by
  refine ⟨by decide, by decide, ?_⟩
  have harith : ∀ i, i < 20 →
      (tokIter (251 + 0) (estimateTokens c3Decision.reasoning) i
        agentInitialContext.tokenCounter).canAddTokens (251 + 0 + 400) = true := by
    decide
  have hinput : ∀ i : Nat, estimateTokens (envC3ok.userInput i) = 0 := fun _ => est_empty
  apply c3_amended_fallback_iterations envC3ok (fun i _ => rfl) (fun i _ => rfl)
  intro i hi
  rw [iterGuardOk_eq,
      show iterCtxAfter envC3ok agentInitialContext i
          = iterCtxFrom envC3ok agentInitialContext 0 i from rfl,
      iterCtxFrom_counter envC3ok c3Decision (fun _ => rfl) (by decide) 0 hinput,
      est_iterSystemPrompt, hinput i]
  exact harith i hi

/-! ## Claim C4 — plan mode attempts every step exactly once -/

/-- If every remaining step sees a successful, unblocked snapshot and a
successful `MakeDecision`, the plan loop enters the body exactly once per
step, in order, and completes — whatever the action results are. -/
theorem planLoop_all_steps (env : PlanEnv) :
    ∀ (steps : List String) (i : Nat),
      (∀ j, i ≤ j → j < i + steps.length → pageOkNotBlocked (env.page j) = true) →
      (∀ j, i ≤ j → j < i + steps.length → decOk (env.makeDec j) = true) →
      planLoop env steps i = (.planCompleted, List.range' i steps.length) := by
  intro steps
  induction steps with
  | nil => intro i _ _; rfl
  | cons s rest ih =>
    intro i hp hd
    have hpi := hp i (Nat.le_refl i) (by simp only [List.length_cons]; omega)
    have hdi := hd i (Nat.le_refl i) (by simp only [List.length_cons]; omega)
    cases hpg : env.page i with
    | error e =>
      rw [hpg] at hpi
      simp [pageOkNotBlocked] at hpi
    | ok pc =>
      have hnb : isBlockedPage pc = false := by
        rw [hpg] at hpi
        simpa [pageOkNotBlocked] using hpi
      cases hmd : env.makeDec i with
      | error e =>
        rw [hmd] at hdi
        simp [decOk] at hdi
      | ok d =>
        have hrec := ih (i + 1)
          (fun j h1 h2 => hp j (by omega) (by simp only [List.length_cons]; omega))
          (fun j h1 h2 => hd j (by omega) (by simp only [List.length_cons]; omega))
        simp [planLoop, hpg, hnb, hmd, hrec, List.range'_succ]

/-- Claim C4: when planning succeeded with a plan of `N` steps, exactly `N`
step-execution attempts occur, in plan order, each step exactly once
(`List.range N` is the attempt list), and the loop returns success after
the last step regardless of the individual `executeAction` results (the
environment's action results are unconstrained). -/
theorem c4_plan_exec_attempts_all_steps (env : PlanEnv) (steps : List String)
    (hp : ∀ j, j < steps.length → pageOkNotBlocked (env.page j) = true)
    (hd : ∀ j, j < steps.length → decOk (env.makeDec j) = true) :
    planLoop env steps 0 = (.planCompleted, List.range steps.length) := by
  have h := planLoop_all_steps env steps 0
    (fun j _ h2 => hp j (by omega))
    (fun j _ h2 => hd j (by omega))
  rw [h, List.range_eq_range']

/-- Witness for C4: a three-step plan in which the second step's action
fails still yields three in-order attempts and success. -/
theorem c4_plan_exec_attempts_all_steps_witness :
    decOk (envC4.makeDec 0) = true ∧
    envC4.actionRes 1 = .error "action failed" ∧
    planLoop envC4 stepsC4 0 = (.planCompleted, List.range stepsC4.length) :=
  ⟨by decide, rfl,
   c4_plan_exec_attempts_all_steps envC4 stepsC4
     (fun j hj => rfl) (fun j hj => rfl)⟩

/-! ## Claim C7 — malformed oracle responses -/

/-- Claim C7 as stated is false.  For the malformed body `"not json"`:
`MakeDecision` does build the synthetic Decision (action `error`, reasoning
= raw text), but it returns it together with a non-nil error.  The
iterative consumer therefore discards it and substitutes a Decision whose
reasoning is the parse-error message, not the raw text; and the plan-mode
consumer treats the error as fatal, aborting the task after the first step
— a malformed response IS surfaced as a failure that aborts the task. -/
theorem c7_malformed_response_counterexample :
    (makeDecisionModel badParse "not json").1.action = "error" ∧
    (makeDecisionModel badParse "not json").1.reasoning = "not json" ∧
    (makeDecisionModel badParse "not json").2.isSome = true ∧
    (analyzeAndDecideResult (makeDecisionModel badParse "not json")).reasoning ≠ "not json" ∧
    planLoop envC7 ["step one"] 0
      = (.decisionFailed 1 "failed to parse decision JSON: invalid character", [0]) := by
  decide

/-- Claim C7, amended: `MakeDecision` maps a body that fails to parse
(after stripping one code fence) to a Decision with action `error` and
reasoning equal to the raw text, but also returns a non-nil parse error.
The iterative-mode consumer then replaces it with a synthetic error
Decision carrying the parse-error message (not the raw text) and continues,
while the plan-mode consumer receives the error and aborts the task. -/
theorem c7_amended_malformed_response
    (parse : List Char → Except String DecisionResponse) (raw m : String)
    (h : parse (stripFence raw.data) = .error m) :
    (makeDecisionModel parse raw).1.action = "error" ∧
    (makeDecisionModel parse raw).1.reasoning = raw ∧
    (makeDecisionModel parse raw).2 = some ("failed to parse decision JSON: " ++ m) ∧
    analyzeAndDecideResult (makeDecisionModel parse raw)
      = { action := "error", reasoning := "failed to parse decision JSON: " ++ m,
          isComplete := false } ∧
    makeDecisionExcept parse raw
      = .error ("failed to parse decision JSON: " ++ m) := by
  simp [makeDecisionModel, makeDecisionExcept, analyzeAndDecideResult, h]

/-- Witness for the amended C7 at a concrete malformed body. -/
theorem c7_amended_malformed_response_witness :
    badParse (stripFence ("not json").data) = .error "invalid character" ∧
    makeDecisionExcept badParse "not json"
      = .error ("failed to parse decision JSON: " ++ "invalid character") :=
  ⟨rfl,
   (c7_amended_malformed_response badParse "not json" "invalid character" rfl).2.2.2.2⟩

/-! ## Claims C8 and C10 — `executeAction` dispatch behaviour -/

theorem goToLower_navigate : goToLower "navigate" = "navigate" := by decide

theorem goToLower_click : goToLower "click" = "click" := by decide

theorem goToLower_fill : goToLower "fill" = "fill" := by decide

theorem goToLower_focus : goToLower "focus" = "focus" := by decide

theorem goToLower_type : goToLower "type" = "type" := by decide

theorem goToLower_press : goToLower "press" = "press" := by decide

/-- The rewritten navigation error of `Manager.Navigate` contains the
lower-case marker that `Agent.executeAction` looks for. -/
theorem navMsg_contains_page_closed :
    goContains
      "page closed during navigation (possibly due to CAPTCHA) - retrying may help"
      "page closed" = true := by
  decide

/-- Claim C8: when the underlying driver operation fails because the target
page was torn down (an error containing "Page closed"/"page closed"), each
of navigate, click, fill, focus, type, and key-press dispatch returns
success (nil error) to the calling loop instead of propagating a hard
error, so the step/iteration sequence continues. -/
theorem c8_page_closed_tolerated (sec : Except String Bool) (e sel txt url : String)
    (he : pageClosedErr e = true) (hu : url ≠ "") (hs : sel ≠ "") (ht : txt ≠ "") :
    (executeAction sec (drvAllErr e) { action := "navigate", url := url }).1 = .ok () ∧
    (executeAction sec (drvAllErr e) { action := "click", selector := sel }).1 = .ok () ∧
    (executeAction sec (drvAllErr e) { action := "fill", selector := sel, text := txt }).1
      = .ok () ∧
    (executeAction sec (drvAllErr e) { action := "focus", selector := sel }).1 = .ok () ∧
    (executeAction sec (drvAllErr e) { action := "type", selector := sel, text := txt }).1
      = .ok () ∧
    (executeAction sec (drvAllErr e) { action := "press", text := txt }).1 = .ok () := by
  refine ⟨?_, ?_, ?_, ?_, ?_, ?_⟩ <;>
    simp [executeAction, executeActionCore, drvAllErr, managerNavigate, managerClick,
          managerFill, managerFocus, managerTypeText, managerPressKey,
          goToLower_navigate, goToLower_click, goToLower_fill, goToLower_focus,
          goToLower_type, goToLower_press, navMsg_contains_page_closed,
          he, hu, hs, ht]

/-- Witness for C8 at concrete inputs. -/
theorem c8_page_closed_tolerated_witness :
    pageClosedErr "page closed" = true ∧
    (executeAction (.ok true) (drvAllErr "page closed")
      { action := "click", selector := "#a" }).1 = .ok () :=
  ⟨by decide,
   (c8_page_closed_tolerated (.ok true) "page closed" "#a" "Enter" "https://x.example"
     (by decide) (by decide) (by decide) (by decide)).2.1⟩

/-- Claim C10: a recognized action whose required parameter is absent is a
silent successful no-op — for a Decision without the confirmation flag,
navigate with empty url, click/focus with empty selector, fill/type with
empty selector or empty text, and press with empty text, `executeAction`
issues no browser call and returns success. -/
theorem c10_empty_param_silent_noop (sec : Except String Bool) (drv : DriverEnv)
    (d : DecisionResponse)
    (hconf : d.needsConfirm = false)
    (hcase :
      (d.action = "navigate" ∧ d.url = "") ∨
      ((d.action = "click" ∨ d.action = "focus") ∧ d.selector = "") ∨
      ((d.action = "fill" ∨ d.action = "type") ∧ (d.selector = "" ∨ d.text = "")) ∨
      (d.action = "press" ∧ d.text = "")) :
    executeAction sec drv d = (.ok (), []) := by
  unfold executeAction
  rw [hconf]
  simp only [Bool.false_eq_true, if_false]
  unfold executeActionCore
  rcases hcase with ⟨ha, hu⟩ | ⟨ha, hs⟩ | ⟨ha, hst⟩ | ⟨ha, ht⟩
  · rw [ha, goToLower_navigate]
    simp [hu]
  · rcases ha with ha | ha
    · rw [ha, goToLower_click]
      simp [hs]
    · rw [ha, goToLower_focus]
      simp [hs]
  · rcases ha with ha | ha
    · rw [ha, goToLower_fill]
      rcases hst with hsel | htxt
      · simp [hsel]
      · simp [htxt]
    · rw [ha, goToLower_type]
      rcases hst with hsel | htxt
      · simp [hsel]
      · simp [htxt]
  · rw [ha, goToLower_press]
    simp [ht]

/-- Witness for C10: a navigate decision with an empty url is a silent
no-op. -/
theorem c10_empty_param_silent_noop_witness :
    ({ action := "navigate", url := "" } : DecisionResponse).needsConfirm = false ∧
    executeAction (.ok true) drvAllOk { action := "navigate", url := "" } = (.ok (), []) :=
  ⟨rfl,
   c10_empty_param_silent_noop (.ok true) drvAllOk { action := "navigate", url := "" }
     rfl (Or.inl ⟨rfl, rfl⟩)⟩

/-! ## Claim C5 — the session active-page invariant -/

/-- `lookup` finds a binding exactly when the key occurs among the map
keys. -/
theorem regLookup_isSome_iff (l : List (String × PageData)) (a : String) :
    (l.lookup a).isSome = true ↔ a ∈ l.map Prod.fst := by
  induction l with
  | nil => simp [List.lookup]
  | cons p t ih =>
    obtain ⟨k, v⟩ := p
    cases hak : a == k
    · have hne : ¬a = k := by simpa using hak
      simp [List.lookup, hak, ih, hne]
    · have heq : a = k := by simpa using hak
      simp [List.lookup, hak, heq]

/-- Deleting the entry keyed `id` deletes exactly `id` from the key list. -/
theorem regKeys_eraseP (l : List (String × PageData)) (id : String) :
    (l.eraseP (fun p => p.1 == id)).map Prod.fst = (l.map Prod.fst).erase id := by
  induction l with
  | nil => rfl
  | cons p t ih =>
    obtain ⟨k, v⟩ := p
    simp only [List.eraseP_cons, List.map_cons, List.erase_cons]
    cases hk : k == id
    · simp [hk, ih]
    · simp [hk]

/-- `setActivePage` preserves registry coherence: it only activates ids
that are present in the `pages` map. -/
theorem setActivePage_coherent (st : Registry) (id : String)
    (h : RegistryCoherent st) : RegistryCoherent (st.setActivePage id) := by
  unfold Registry.setActivePage
  cases hl : st.pages.lookup id with
  | none => exact h
  | some pd =>
    obtain ⟨h1, h2, h3, h4, h5⟩ := h
    refine ⟨h1, h2, h3, h4, fun _ => ?_⟩
    have hk : id ∈ st.pages.map Prod.fst :=
      (regLookup_isSome_iff st.pages id).1 (by rw [hl]; rfl)
    exact h4 id hk

/-- `registerPage` preserves registry coherence. -/
theorem registerPage_coherent (st : Registry) (id : String) (pd : PageData)
    (act : Bool) (h : RegistryCoherent st) :
    RegistryCoherent (st.registerPage id pd act) := by
  unfold Registry.registerPage
  by_cases hex : (st.pages.lookup id).isSome = true
  · rw [if_pos hex]
    exact h
  · rw [if_neg hex]
    obtain ⟨h1, h2, h3, h4, h5⟩ := h
    have hnk : id ∉ st.pages.map Prod.fst := fun hmem =>
      hex ((regLookup_isSome_iff _ _).2 hmem)
    have hno : id ∉ st.pageOrder := fun hmem => hnk (h3 id hmem)
    have hst1 : RegistryCoherent
        { st with pages := st.pages ++ [(id, pd)], pageOrder := st.pageOrder ++ [id] } := by
      refine ⟨?_, ?_, ?_, ?_, ?_⟩
      · rw [List.nodup_append]
        refine ⟨h1, List.nodup_singleton id, fun a ha hb => ?_⟩
        rw [List.mem_singleton] at hb
        subst hb
        exact hno ha
      · rw [List.map_append, List.nodup_append]
        refine ⟨h2, by simp, fun a ha hb => ?_⟩
        simp only [List.map_cons, List.map_nil, List.mem_singleton] at hb
        subst hb
        exact hnk ha
      · intro x hx
        rw [List.mem_append] at hx
        rw [List.map_append]
        rcases hx with hx | hx
        · exact List.mem_append_left _ (h3 x hx)
        · rw [List.mem_singleton] at hx
          subst hx
          exact List.mem_append_right _ (by simp)
      · intro x hx
        rw [List.map_append] at hx
        rcases List.mem_append.1 hx with hx | hx
        · exact List.mem_append_left _ (h4 x hx)
        · simp only [List.map_cons, List.map_nil, List.mem_singleton] at hx
          subst hx
          exact List.mem_append_right _ (by simp)
      · intro hne
        exact List.mem_append_left _ (h5 hne)
    by_cases hact : (act || st.activePageID == "") = true
    · rw [if_pos hact]
      exact setActivePage_coherent _ id hst1
    · rw [if_neg hact]
      exact hst1

/-- `handlePageClosed` preserves registry coherence. -/
theorem handlePageClosed_coherent (st : Registry) (id : String)
    (h : RegistryCoherent st) : RegistryCoherent (st.handlePageClosed id) := by
  obtain ⟨h1, h2, h3, h4, h5⟩ := h
  have horder : ((st.dropFromPages id).dropFromOrder id).pageOrder
      = st.pageOrder.erase id := rfl
  have hkeys : ((st.dropFromPages id).dropFromOrder id).pages.map Prod.fst
      = (st.pages.map Prod.fst).erase id := regKeys_eraseP st.pages id
  have hc1 : ((st.dropFromPages id).dropFromOrder id).pageOrder.Nodup := by
    rw [horder]
    exact h1.erase id
  have hc2 : (((st.dropFromPages id).dropFromOrder id).pages.map Prod.fst).Nodup := by
    rw [hkeys]
    exact h2.erase id
  have hc3 : ∀ x ∈ ((st.dropFromPages id).dropFromOrder id).pageOrder,
      x ∈ ((st.dropFromPages id).dropFromOrder id).pages.map Prod.fst := by
    intro x hx
    rw [horder] at hx
    rw [hkeys]
    obtain ⟨hxne, hxmem⟩ := h1.mem_erase_iff.1 hx
    exact h2.mem_erase_iff.2 ⟨hxne, h3 x hxmem⟩
  have hc4 : ∀ x ∈ ((st.dropFromPages id).dropFromOrder id).pages.map Prod.fst,
      x ∈ ((st.dropFromPages id).dropFromOrder id).pageOrder := by
    intro x hx
    rw [hkeys] at hx
    rw [horder]
    obtain ⟨hxne, hxmem⟩ := h2.mem_erase_iff.1 hx
    exact h1.mem_erase_iff.2 ⟨hxne, h4 x hxmem⟩
  unfold Registry.handlePageClosed
  by_cases hb : (((st.dropFromPages id).dropFromOrder id).activePageID == id) = true
  · rw [if_pos hb]
    cases hl : ((st.dropFromPages id).dropFromOrder id).pageOrder.getLast? with
    | none => exact ⟨hc1, hc2, hc3, hc4, fun hne => absurd rfl hne⟩
    | some lastId =>
      exact setActivePage_coherent _ lastId ⟨hc1, hc2, hc3, hc4, fun hne => absurd rfl hne⟩
  · rw [if_neg hb]
    refine ⟨hc1, hc2, hc3, hc4, ?_⟩
    intro hne
    have hne_id : st.activePageID ≠ id := by
      intro hh
      exact hb (by simp [Registry.dropFromPages, Registry.dropFromOrder, hh])
    rw [horder]
    exact h1.mem_erase_iff.2 ⟨hne_id, h5 hne⟩

/-- `SwitchToPage` preserves registry coherence (every branch activates a
registered id or leaves the state unchanged). -/
theorem switchToPage_coherent (st : Registry) (tgt : String)
    (h : RegistryCoherent st) : RegistryCoherent (st.switchToPage tgt).1 := by
  unfold Registry.switchToPage
  repeat' split
  all_goals
    first
      | exact h
      | exact setActivePage_coherent _ _ h

/-- The registration pass of a rebuild preserves coherence from any start. -/
theorem foldl_registerPage_coherent :
    ∀ (pgs : List (String × PageData)) (st : Registry), RegistryCoherent st →
      RegistryCoherent (pgs.foldl (fun st p =>
        st.registerPage p.1 p.2 (st.pageOrder.isEmpty && st.activePageID == "")) st) := by
  intro pgs
  induction pgs with
  | nil => intro st h; exact h
  | cons a t ih =>
    intro st h
    exact ih _ (registerPage_coherent _ _ _ _ h)

/-- The reset registry is coherent. -/
theorem registryEmpty_coherent : RegistryCoherent Registry.empty := by
  decide

/-- `rebuildPageTracking` produces a coherent registry from any page list. -/
theorem rebuildPageTracking_coherent (pgs : List (String × PageData)) :
    RegistryCoherent (rebuildPageTracking pgs) := by
  have hfold : RegistryCoherent (rebuildFold pgs) :=
    foldl_registerPage_coherent pgs Registry.empty registryEmpty_coherent
  unfold rebuildPageTracking
  repeat' split
  all_goals
    first
      | exact hfold
      | exact setActivePage_coherent _ _ hfold

/-- When the id is a registered key, `setActivePage` activates it. -/
theorem setActivePage_active_of_isSome (st : Registry) (id : String)
    (h : (st.pages.lookup id).isSome = true) :
    (st.setActivePage id).activePageID = id := by
  unfold Registry.setActivePage
  cases hl : st.pages.lookup id with
  | none =>
    rw [hl] at h
    simp at h
  | some pd => rfl

/-- Closing the active page re-designates the most recently opened
remaining page (the last of `pageOrder` after removal), or clears the
active pointer when no page remains. -/
theorem handlePageClosed_active_redesignation (st : Registry)
    (h : RegistryCoherent st) (_hne : st.activePageID ≠ "") :
    (st.handlePageClosed st.activePageID).activePageID
      = ((st.pageOrder.erase st.activePageID).getLast?).getD "" := by
  obtain ⟨h1, h2, h3, h4, h5⟩ := h
  have hkeys : ((st.dropFromPages st.activePageID).dropFromOrder
      st.activePageID).pages.map Prod.fst
      = (st.pages.map Prod.fst).erase st.activePageID :=
    regKeys_eraseP st.pages st.activePageID
  unfold Registry.handlePageClosed
  have hb : (((st.dropFromPages st.activePageID).dropFromOrder
      st.activePageID).activePageID == st.activePageID) = true := by
    simp [Registry.dropFromPages, Registry.dropFromOrder]
  rw [if_pos hb]
  cases hl : ((st.dropFromPages st.activePageID).dropFromOrder
      st.activePageID).pageOrder.getLast? with
  | none =>
    have hr : (st.pageOrder.erase st.activePageID).getLast? = none := hl
    rw [hr]
    rfl
  | some lastId =>
    have hmem : lastId ∈ st.pageOrder.erase st.activePageID :=
      List.mem_of_mem_getLast? hl
    obtain ⟨hlne, hlmem⟩ := h1.mem_erase_iff.1 hmem
    have hkmem : lastId ∈ ((st.dropFromPages st.activePageID).dropFromOrder
        st.activePageID).pages.map Prod.fst := by
      rw [hkeys]
      exact h2.mem_erase_iff.2 ⟨hlne, h3 lastId hlmem⟩
    have hsome : (((st.dropFromPages st.activePageID).dropFromOrder
        st.activePageID).pages.lookup lastId).isSome = true :=
      (regLookup_isSome_iff _ _).2 hkmem
    have hact : (({ (st.dropFromPages st.activePageID).dropFromOrder st.activePageID with
        activePageID := "" } : Registry).setActivePage lastId).activePageID = lastId :=
      setActivePage_active_of_isSome _ lastId hsome
    have hr : (st.pageOrder.erase st.activePageID).getLast? = some lastId := hl
    rw [hr]
    show (({ (st.dropFromPages st.activePageID).dropFromOrder st.activePageID with
        activePageID := "" } : Registry).setActivePage lastId).activePageID
      = (some lastId).getD ""
    rw [hact]
    rfl

/-- Claim C5: registry coherence — in particular the invariant that the
active page id, when set, references a currently registered page — is
preserved by every registry operation (register page, close page, switch
tab, rebuild); and when the active page closes, the session re-designates
the most recently opened remaining page as active, or leaves the active
slot empty if no pages remain. -/
theorem c5_active_page_invariant (st : Registry) (h : RegistryCoherent st) :
    (∀ id pd act, RegistryCoherent (st.registerPage id pd act)) ∧
    (∀ id, RegistryCoherent (st.handlePageClosed id)) ∧
    (∀ tgt, RegistryCoherent (st.switchToPage tgt).1) ∧
    (∀ pgs, RegistryCoherent (rebuildPageTracking pgs)) ∧
    (st.activePageID ≠ "" →
      (st.handlePageClosed st.activePageID).activePageID
        = ((st.pageOrder.erase st.activePageID).getLast?).getD "") :=
  ⟨fun id pd act => registerPage_coherent st id pd act h,
   fun id => handlePageClosed_coherent st id h,
   fun tgt => switchToPage_coherent st tgt h,
   fun pgs => rebuildPageTracking_coherent pgs,
   fun hne => handlePageClosed_active_redesignation st h hne⟩

/-- Witness for C5: a concrete three-page registry with the newest page
active; closing the active page promotes the most recently opened
remaining page. -/
theorem c5_active_page_invariant_witness :
    RegistryCoherent st0reg ∧
    (st0reg.handlePageClosed st0reg.activePageID).activePageID
      = ((st0reg.pageOrder.erase st0reg.activePageID).getLast?).getD "" :=
  ⟨by decide, (c5_active_page_invariant st0reg (by decide)).2.2.2.2 (by decide)⟩

/-! ## Claim C9 — unserialized registry mutation from callbacks -/

/-- Claim C9 concerns mutual exclusion that the source does not have:
`browser.Manager` holds no lock, and the `OnPage`/`OnClose` callbacks
mutate `pages`, `pageOrder`, and `activePageID` directly while
orchestrator-issued commands read them.  `handlePageClosed` first performs
`delete(m.pages, id)` and only afterwards repairs `pageOrder` and the
active pointer.  This theorem exhibits the half-updated registry state that
exists between those mutations when the active page closes: the active id
still points at a page that is no longer registered, and the order list
still contains the deleted id — the state violates `RegistryCoherent`, and
without a mutual-exclusion domain a concurrent lookup can observe it. -/
theorem c9_unserialized_half_updated_state :
    (st0reg.dropFromPages "p3").activePageID = "p3" ∧
    (st0reg.dropFromPages "p3").pages.lookup "p3" = none ∧
    "p3" ∈ (st0reg.dropFromPages "p3").pageOrder ∧
    ¬RegistryCoherent (st0reg.dropFromPages "p3") := by
  decide

end AIBot
